import Mathlib

/-!
Shallow embedding of the WhatsApp scheduler server (server.js and the
unnamed earlier variant of the same file) for verification of the
scheduled-delivery pipeline: MIME classification, payload composition,
the two-phase provider send, due-message dispatch, startup recovery,
schedule-time normalization, and the webhook receipt handler.

Database rows are modelled as Lean structures mirroring the columns
created by createTables; a table is a List of rows.  Provider calls
(axios posts to the media and messages endpoints) are modelled by a
Provider record of response functions, and every send-path function
additionally returns the trace of provider calls it performed, so that
"no provider call is made" is a statement about the trace.
-/

/-- Row of the media_library table: id SERIAL, name TEXT, type TEXT,
content BYTEA (the binary content is opaque, modelled as a list of bytes
as naturals). -/
structure MediaRow where
  id : Nat
  name : String
  type : String
  content : List Nat
deriving DecidableEq, Repr

/-- Row of the scheduled_messages table: id SERIAL, phone_number TEXT,
message_text TEXT (nullable), media_id INT (nullable, references
media_library), scheduled_time TIMESTAMP (modelled as the instant held by
the column, minutes since epoch), status TEXT DEFAULT "pending". -/
structure ScheduledMsg where
  id : Nat
  phone_number : String
  message_text : Option String
  media_id : Option Nat
  scheduled_time : Int
  status : String
deriving DecidableEq, Repr

/-- Outbound payload posted to the messages endpoint: either
payload.type = "text" with payload.text = \x7b body: text \x7d, or
payload.type = waType with payload[waType] = \x7b id, caption \x7d. -/
inductive Payload where
  | text (to_ : String) (body : Option String)
  | media (to_ : String) (waType : String) (mediaId : String) (caption : String)
deriving DecidableEq, Repr

/-- One provider (WhatsApp Graph API) call performed by the send path:
an upload to the media endpoint or a submission to the messages
endpoint. -/
inductive ProviderCall where
  | upload (name : String) (type : String) (content : List Nat)
  | submit (payload : Payload)
deriving DecidableEq, Repr

/-- Whether a provider call is a message submission. -/
def ProviderCall.isSubmit : ProviderCall → Bool
  | .upload _ _ _ => false
  | .submit _ => true

/-- Behaviour of the external provider for one run.  uploadMedia returns
the provider media id, or none when the upload request fails (axios
throws, caught inside uploadMediaToWhatsApp which returns null).
submitMessage returns none when the post to the messages endpoint throws;
on HTTP success it returns some of the value of
resp.data.messages?.[0]?.id || null (an Option String, none when the
response carries no message id). -/
structure Provider where
  uploadMedia : String → String → List Nat → Option String
  submitMessage : Payload → Option (Option String)

/-- The WHATSAPP_ALLOWED_TYPES object literal, in insertion order
(Object.entries iterates object-literal keys in insertion order). -/
def WHATSAPP_ALLOWED_TYPES : List (String × List String) :=
  [ ("image", ["image/jpeg", "image/png", "image/webp"]),
    ("video", ["video/mp4", "video/3gpp"]),
    ("audio", ["audio/aac", "audio/mp4", "audio/mpeg", "audio/amr",
               "audio/ogg", "audio/opus"]),
    ("document", ["application/pdf", "application/vnd.ms-powerpoint",
        "application/msword",
        "application/vnd.openxmlformats-officedocument.wordprocessingml.document",
        "application/vnd.openxmlformats-officedocument.presentationml.presentation",
        "application/vnd.openxmlformats-officedocument.spreadsheetml.sheet",
        "text/plain", "application/vnd.ms-excel"]) ]

/-- getWhatsAppPayloadType: scan the categories in order and return the
first whose list contains the MIME type; fall through to "document" when
no list contains it. -/
def getWhatsAppPayloadType (mimeType : String) : String :=
  match WHATSAPP_ALLOWED_TYPES.find? (fun p => p.2.contains mimeType) with
  | some p => p.1
  | none => "document"

/-- SELECT * FROM media_library WHERE id=$1 followed by r.rows[0]:
first row with the given id, none when the table has no such row. -/
def findMedia (media : List MediaRow) (i : Nat) : Option MediaRow :=
  (media.filter (fun m => m.id == i)).head?

/-- UPDATE scheduled_messages SET status=$1 WHERE id=$2. -/
def updateStatus (db : List ScheduledMsg) (i : Nat) (s : String) :
    List ScheduledMsg :=
  db.map (fun m => if m.id == i then { m with status := s } else m)

/-- Decimal value of a digit character, none for a non-digit. -/
def digitVal? (c : Char) : Option Nat :=
  if 48 ≤ c.toNat ∧ c.toNat ≤ 57 then some (c.toNat - 48) else none

/-- Accumulating decimal parse of a character list; none as soon as a
non-digit appears. -/
def pgNatAux : List Char → Nat → Option Nat
  | [], acc => some acc
  | c :: cs, acc =>
    match digitVal? c with
    | none => none
    | some d => pgNatAux cs (acc * 10 + d)

/-- Postgres cast of a text parameter to INT (int4in): a nonempty
all-digit string parses as the decimal number; anything else raises
"invalid input syntax for type integer". -/
def pgToNat? (s : String) : Option Nat :=
  match s.data with
  | [] => none
  | cs => pgNatAux cs 0

namespace ServerJs

/-- sendWhatsAppMessage of server.js.  With a mediaRow: upload first; a
null mediaId throws "Media upload failed", caught below returning null,
so the messages endpoint is not reached; otherwise build the media
payload (caption is text || "") and post it, returning
resp.data.messages?.[0]?.id || null.  Without a mediaRow: post a text
payload.  A throwing post is caught and null is returned.  The second
component is the trace of provider calls performed. -/
def sendWhatsAppMessage (P : Provider) (to_ : String) (text : Option String)
    (mediaRow : Option MediaRow) : Option String × List ProviderCall :=
  match mediaRow with
  | some row =>
    let uploadCall := ProviderCall.upload row.name row.type row.content
    match P.uploadMedia row.name row.type row.content with
    | none => (none, [uploadCall])
    | some mediaId =>
      let waType := getWhatsAppPayloadType row.type
      let payload := Payload.media to_ waType mediaId (text.getD "")
      match P.submitMessage payload with
      | none => (none, [uploadCall, ProviderCall.submit payload])
      | some respId => (respId, [uploadCall, ProviderCall.submit payload])
  | none =>
    let payload := Payload.text to_ text
    match P.submitMessage payload with
    | none => (none, [ProviderCall.submit payload])
    | some respId => (respId, [ProviderCall.submit payload])

/-- Body of the processDueMessages loop for one selected row msg: load
mediaRow (msg.media_id ? rows[0] : null — a missing media row yields
undefined, which the default parameter turns into null), send, then
UPDATE status to "sent" when a messageId came back and "failed"
otherwise.  Returns the updated table and the provider-call trace. -/
def processOne (P : Provider) (media : List MediaRow)
    (db : List ScheduledMsg) (msg : ScheduledMsg) :
    List ScheduledMsg × List ProviderCall :=
  let mediaRow := msg.media_id.bind (findMedia media)
  let res := sendWhatsAppMessage P msg.phone_number msg.message_text mediaRow
  (updateStatus db msg.id (if res.1.isSome then "sent" else "failed"), res.2)

/-- processDueMessages: SELECT * FROM scheduled_messages WHERE
status="pending" AND scheduled_time <= nowUTC, then process each selected
row in order against the live table. -/
def processDueMessages (P : Provider) (media : List MediaRow)
    (db : List ScheduledMsg) (nowUTC : Int) :
    List ScheduledMsg × List ProviderCall :=
  let pending := db.filter
    (fun m => m.status == "pending" && decide (m.scheduled_time ≤ nowUTC))
  pending.foldl
    (fun acc msg =>
      let step := processOne P media acc.1 msg
      (step.1, acc.2 ++ step.2))
    (db, ([] : List ProviderCall))

/-- Local status written by the webhook for a receipt status:
"delivered" and "read" map to "sent"; anything else (including the
receipt statuses "sent" and "failed") maps to "failed". -/
def receiptLocalStatus (messageStatus : String) : String :=
  if messageStatus == "delivered" || messageStatus == "read"
  then "sent" else "failed"

/-- One receipt update: UPDATE scheduled_messages SET status=$1 WHERE
id=$2, with $2 bound to the WhatsApp message id string (status.id).  The
id column is INT, so Postgres casts the parameter: a non-integer string
raises "invalid input syntax for type integer" (the error branch); an
integer string updates every row whose local primary key equals it. -/
def webhookUpdate (db : List ScheduledMsg) (messageId : String)
    (messageStatus : String) : Except String (List ScheduledMsg) :=
  match pgToNat? messageId with
  | none => Except.error "invalid input syntax for type integer"
  | some i => Except.ok (updateStatus db i (receiptLocalStatus messageStatus))

/-- The nested for-loops of the webhook handler, flattened to the list of
(status.id, status.status) pairs: each pair performs webhookUpdate; a
raised error aborts the remaining iterations (it is caught by the
handler-level catch). -/
def webhookLoop (db : List ScheduledMsg) :
    List (String × String) → List ScheduledMsg
  | [] => db
  | (mid, st) :: rest =>
    match webhookUpdate db mid st with
    | Except.error _ => db
    | Except.ok db2 => webhookLoop db2 rest

/-- POST /webhook: process the receipts inside try/catch (errors are
logged and swallowed), then res.sendStatus(200) unconditionally.  Result
is the final table and the HTTP status code sent to the provider. -/
def webhookPost (db : List ScheduledMsg)
    (receipts : List (String × String)) : List ScheduledMsg × Nat :=
  (webhookLoop db receipts, 200)

end ServerJs

namespace Part000

/-- sendWhatsAppMessage of the earlier variant (src/unnamed/part_000):
same two-phase body as the server.js version, but it returns true on a
successful post and false on any failure; msgId is used only in log
lines. -/
def sendWhatsAppMessage (P : Provider) (to_ : String) (text : Option String)
    (mediaRow : Option MediaRow) (msgId : Option Nat) :
    Bool × List ProviderCall :=
  match mediaRow with
  | some row =>
    let uploadCall := ProviderCall.upload row.name row.type row.content
    match P.uploadMedia row.name row.type row.content with
    | none => (false, [uploadCall])
    | some mediaId =>
      let waType := getWhatsAppPayloadType row.type
      let payload := Payload.media to_ waType mediaId (text.getD "")
      ((P.submitMessage payload).isSome,
        [uploadCall, ProviderCall.submit payload])
  | none =>
    let payload := Payload.text to_ text
    ((P.submitMessage payload).isSome, [ProviderCall.submit payload])

/-- sendAndMark: load the media row for msg.media_id (rows[0] of the
SELECT, null when media_id is null, undefined-turned-null when the row is
gone), send, then UPDATE status to "sent" on success and "failed"
otherwise (also on a thrown error).  Note that the current stored status
of the row is neither read nor re-checked anywhere in this path. -/
def sendAndMark (P : Provider) (media : List MediaRow)
    (db : List ScheduledMsg) (msg : ScheduledMsg) :
    List ScheduledMsg × List ProviderCall :=
  let mediaRow := msg.media_id.bind (findMedia media)
  let res := sendWhatsAppMessage P msg.phone_number msg.message_text
    mediaRow (some msg.id)
  (updateStatus db msg.id (if res.1 then "sent" else "failed"), res.2)

/-- What scheduleMessage decides to do with one row. -/
inductive SchedulerAction where
  | dispatchNow
  | armTimer (delay : Int)
deriving DecidableEq, Repr

/-- scheduleMessage: delay = scheduled_time - now; if delay <= 0 run
sendAndMark immediately, otherwise arm a setTimeout for delay. -/
def scheduleMessage (now : Int) (msg : ScheduledMsg) : SchedulerAction :=
  let delay := msg.scheduled_time - now
  if delay ≤ 0 then SchedulerAction.dispatchNow
  else SchedulerAction.armTimer delay

/-- The SELECT of initPendingMessages: SELECT * FROM scheduled_messages
WHERE status="pending" AND scheduled_time >= $1 with $1 = now. -/
def initPendingSelect (db : List ScheduledMsg) (now : Int) :
    List ScheduledMsg :=
  db.filter (fun m => m.status == "pending" && decide (now ≤ m.scheduled_time))

/-- initPendingMessages: every selected row is handed to scheduleMessage,
the same routine the schedule-message endpoint calls on a new row. -/
def initPendingMessages (db : List ScheduledMsg) (now : Int) :
    List (ScheduledMsg × SchedulerAction) :=
  (initPendingSelect db now).map (fun m => (m, scheduleMessage now m))

end Part000

/-- An ISO 8601 date-time string as luxon parses it: the wall-clock value
it spells (in minutes) and the explicit zone offset it carries, if any
(minutes east of UTC). -/
structure ISOTime where
  wall : Int
  offset : Option Int
deriving DecidableEq, Repr

/-- Fixed offset of Asia/Kolkata: UTC+05:30, no daylight saving. -/
def kolkataOffset : Int := 330

/-- Instant denoted by DateTime.fromISO(s, zone Asia/Kolkata): an
explicit offset in the string wins; a zoneless string is interpreted as
Asia/Kolkata wall-clock time. -/
def fromISOKolkata (t : ISOTime) : Int := t.wall - t.offset.getD kolkataOffset

/-- Rendering an instant with .toUTC().toISO(): the wall clock equals the
instant and the string carries the explicit offset +00:00. -/
def toUTCISO (instant : Int) : ISOTime := ⟨instant, some 0⟩

/-- The UTC instant the caller means by an input, given the offset of the
zone the caller writes wall-clock time in (used only when the string
carries no explicit offset). -/
def utcInstant (t : ISOTime) (callerOffset : Int) : Int :=
  t.wall - t.offset.getD callerOffset

/-- Value a TIMESTAMP (without time zone) column holds for an inserted
ISO string: Postgres keeps the wall-clock fields and discards any zone
offset suffix. -/
def timestampColumnValue (t : ISOTime) : Int := t.wall

namespace ServerJs

/-- scheduledUTC of the schedule-message handler in server.js:
DateTime.fromISO(scheduled_time, zone Asia/Kolkata).toUTC().toISO(),
computed once, at creation, before the INSERT. -/
def scheduledUTC (scheduled_time : ISOTime) : ISOTime :=
  toUTCISO (fromISOKolkata scheduled_time)

end ServerJs

namespace Part000

/-- The schedule-message handler of the earlier variant inserts the
caller-supplied scheduled_time value unchanged: no zone conversion of any
kind happens at creation. -/
def storedScheduledTime (scheduled_time : ISOTime) : ISOTime :=
  scheduled_time

end Part000

/-- Number of message submissions in a provider-call trace. -/
def countSubmits (tr : List ProviderCall) : Nat :=
  (tr.filter ProviderCall.isSubmit).length

/-- A provider run in which every call succeeds: uploads return media id
"MEDIA1" and submissions are accepted with message id "wamid.OK". -/
def okProvider : Provider :=
  ⟨fun _ _ _ => some "MEDIA1", fun _ => some (some "wamid.OK")⟩

/-- Same accepting provider but assigning a different message id, used to
show the stored record does not depend on the assigned id. -/
def okProviderB : Provider :=
  ⟨fun _ _ _ => some "MEDIA1", fun _ => some (some "wamid.OTHER")⟩

/-- A provider run in which the media upload fails (uploadMediaToWhatsApp
returns null) while the messages endpoint would accept anything. -/
def uploadFailProvider : Provider :=
  ⟨fun _ _ _ => none, fun _ => some (some "wamid.OK")⟩

/-- A text-only scheduled row, id 1, due at instant 0. -/
def msgText1 : ScheduledMsg :=
  ⟨1, "+1555", some "hi", none, 0, "pending"⟩

/-- A scheduled row whose media_id 42 references no existing media row. -/
def msgDangling : ScheduledMsg :=
  ⟨1, "+1555", some "hi", some 42, 0, "pending"⟩

/-- A media row with a MIME type outside every allow-list category. -/
def zipRow : MediaRow :=
  ⟨9, "a.zip", "application/zip", [1]⟩

/-- A media row with MIME type image/jpeg, id 42. -/
def jpegRow : MediaRow :=
  ⟨42, "a.jpg", "image/jpeg", [7]⟩

/-! Theorems, one per claim of the specification review. -/

/-- C10: for every table state and every inbound receipt batch, the
webhook POST handler responds HTTP 200 to the provider, including when
receipt processing raises an error (the error is caught and logged, and
the remaining receipts of the batch are skipped without mutating
anything further). -/
theorem c10_webhook_always_200 (db : List ScheduledMsg)
    (receipts : List (String × String)) :
    (ServerJs.webhookPost db receipts).2 = 200 ∧
    ServerJs.webhookPost db (("wamid.ABC", "delivered") :: receipts)
      = (db, 200) := by
  refine ⟨rfl, ?_⟩
  have h : pgToNat? "wamid.ABC" = none := by decide
  simp [ServerJs.webhookPost, ServerJs.webhookLoop, ServerJs.webhookUpdate, h]

/-- C1: the webhook receipt handler does NOT look up the local entry by a
stored providerMessageId field (no such column exists); it matches the
receipt id against the local primary key id.  A receipt carrying a real
provider-shaped id ("wamid.REAL") fails the integer cast and mutates
nothing, while a receipt whose id string happens to equal a local row id
mutates that row even though it was never submitted. -/
theorem c1_webhook_matches_local_id :
    ServerJs.webhookPost
        [⟨7, "+1555", some "hi", none, 0, "pending"⟩]
        [("wamid.REAL", "delivered")]
      = ([⟨7, "+1555", some "hi", none, 0, "pending"⟩], 200) ∧
    ServerJs.webhookPost
        [⟨7, "+1555", some "hi", none, 0, "pending"⟩]
        [("7", "delivered")]
      = ([⟨7, "+1555", some "hi", none, 0, "sent"⟩], 200) := by decide

/-- C5 counterexample: a failure-class receipt whose id parses to the
local id of a row that is already "sent" downgrades that row to "failed",
contradicting the claim that processing any receipt leaves an
already-sent record at "sent". -/
theorem c5_counterexample :
    (ServerJs.webhookPost
        [⟨7, "+1555", some "hi", none, 0, "sent"⟩]
        [("7", "failed")]).1
      = [⟨7, "+1555", some "hi", none, 0, "failed"⟩] := by decide

/-- C5 amended: for a receipt whose id string parses to integer n, the
webhook overwrites the status of every row with local id n to
receiptLocalStatus of the receipt status — "sent" for delivered/read and
"failed" for everything else — unconditionally, regardless of the prior
stored status; there is no guard protecting an already-sent record. -/
theorem c5_amended_unconditional_overwrite (db : List ScheduledMsg)
    (rid st : String) (n : Nat) (hn : pgToNat? rid = some n) :
    (ServerJs.webhookPost db [(rid, st)]).1
      = updateStatus db n (ServerJs.receiptLocalStatus st) := by
  simp [ServerJs.webhookPost, ServerJs.webhookLoop, ServerJs.webhookUpdate, hn]

/-- C5 amended witness: concrete overwrite of a sent row by a receipt
with status "failed" and id "7". -/
theorem c5_amended_unconditional_overwrite_witness :
    (ServerJs.webhookPost
        [⟨7, "+1555", some "hi", none, 0, "sent"⟩]
        [("7", "failed")]).1
      = updateStatus [⟨7, "+1555", some "hi", none, 0, "sent"⟩] 7
          (ServerJs.receiptLocalStatus "failed") :=
  c5_amended_unconditional_overwrite _ _ _ 7 (by decide)

/-- C3 counterexample: a pending entry already 60 minutes past due at
startup (now = 0, scheduled_time = -60) is NOT selected by the startup
recovery query, so it is neither dispatched nor re-armed — contradicting
the claim that the sweep selects every pending entry with scheduledAt at
or before now plus any nonnegative horizon. -/
theorem c3_counterexample :
    Part000.initPendingMessages
        [⟨1, "+1555", some "hi", none, -60, "pending"⟩] 0 = []
    ∧ (-60 : Int) ≤ 0 := by decide

/-- C3 amended: the startup sweep selects exactly the pending entries
whose scheduled_time is at or after now (the query condition is
scheduled_time >= now, not <=): entries whose due time has already passed
are excluded; each selected entry is handed to scheduleMessage, the same
routine the creation path calls. -/
theorem c3_amended_future_only_selection (db : List ScheduledMsg)
    (now : Int) (m : ScheduledMsg) :
    (m ∈ Part000.initPendingSelect db now
      ↔ m ∈ db ∧ m.status = "pending" ∧ now ≤ m.scheduled_time) ∧
    Part000.initPendingMessages db now
      = (Part000.initPendingSelect db now).map
          (fun x => (x, Part000.scheduleMessage now x)) := by
  refine ⟨?_, rfl⟩
  simp [Part000.initPendingSelect, List.mem_filter, and_assoc]

/-- C9 counterexample: the schedule-message handler of the part_000
variant stores the caller value verbatim; for the input 10:00+05:30
(wall 600 minutes, offset 330) the TIMESTAMP column holds 600, while the
UTC instant of that input is 270 — the stored scheduledAt is not the
UTC-normalized instant, so conversion to UTC at creation does not happen
on this scheduling path. -/
theorem c9_counterexample :
    timestampColumnValue (Part000.storedScheduledTime ⟨600, some 330⟩) = 600
    ∧ utcInstant ⟨600, some 330⟩ kolkataOffset = 270
    ∧ timestampColumnValue (Part000.storedScheduledTime ⟨600, some 330⟩)
        ≠ utcInstant ⟨600, some 330⟩ kolkataOffset := by decide

/-- C9 amended: the server.js handler converts scheduled_time to UTC
exactly once, at creation: for any input carrying an explicit caller
offset, the stored column value is the UTC instant of the input and the
stored string carries offset +00:00 (zoneless inputs are interpreted as
Asia/Kolkata); the part_000 variant stores the caller value unchanged,
with no conversion. -/
theorem c9_amended_utc_once (t : ISOTime) (callerOffset : Int)
    (h : t.offset = some callerOffset) :
    timestampColumnValue (ServerJs.scheduledUTC t) = utcInstant t callerOffset
    ∧ (ServerJs.scheduledUTC t).offset = some 0
    ∧ Part000.storedScheduledTime t = t := by
  simp [ServerJs.scheduledUTC, toUTCISO, fromISOKolkata, timestampColumnValue,
    utcInstant, Part000.storedScheduledTime, h]

/-- C9 amended witness: concrete input 10:00+05:30. -/
theorem c9_amended_utc_once_witness :
    timestampColumnValue (ServerJs.scheduledUTC ⟨600, some 330⟩)
        = utcInstant ⟨600, some 330⟩ 330
    ∧ (ServerJs.scheduledUTC ⟨600, some 330⟩).offset = some 0
    ∧ Part000.storedScheduledTime ⟨600, some 330⟩ = ⟨600, some 330⟩ :=
  c9_amended_utc_once ⟨600, some 330⟩ 330 (by decide)

/-- C2 counterexample: an entry whose media_id (42) resolves to no media
row — the asset was deleted — is dispatched anyway: a provider call IS
made, carrying a text-only payload built from the entry text, and the
entry is marked "sent" by the accepted submission, not "failed". -/
theorem c2_counterexample :
    ServerJs.processDueMessages okProvider [] [msgDangling] 0
      = ([⟨1, "+1555", some "hi", some 42, 0, "sent"⟩],
         [ProviderCall.submit (Payload.text "+1555" (some "hi"))]) := by
  decide

/-- C2 amended: when an entry media_id does not resolve to a media row
at dispatch time, dispatch silently behaves exactly as if the entry had
no media at all (the undefined lookup becomes null through the default
parameter): one provider call is made, a text submission built from the
entry text, and the status is written according to that submission
result. -/
theorem c2_amended_text_fallback (P : Provider) (media : List MediaRow)
    (db : List ScheduledMsg) (msg : ScheduledMsg)
    (h : msg.media_id.bind (findMedia media) = none) :
    ServerJs.processOne P media db msg
      = ServerJs.processOne P media db { msg with media_id := none } ∧
    (ServerJs.processOne P media db msg).2
      = [ProviderCall.submit
          (Payload.text msg.phone_number msg.message_text)] := by
  constructor
  · simp [ServerJs.processOne, h]
  · cases hP : P.submitMessage (Payload.text msg.phone_number msg.message_text) <;>
      simp [ServerJs.processOne, ServerJs.sendWhatsAppMessage, h, hP]

/-- C2 amended witness: the dangling entry against an empty media table
and an accepting provider. -/
theorem c2_amended_text_fallback_witness :
    ServerJs.processOne okProvider [] [msgDangling] msgDangling
      = ServerJs.processOne okProvider [] [msgDangling]
          { msgDangling with media_id := none } ∧
    (ServerJs.processOne okProvider [] [msgDangling] msgDangling).2
      = [ProviderCall.submit
          (Payload.text msgDangling.phone_number msgDangling.message_text)] :=
  c2_amended_text_fallback okProvider [] [msgDangling] msgDangling (by decide)

/-- C4 counterexample: two dispatches of the same entry — a due-sweep
marking it "sent", then the armed timer firing sendAndMark with its
captured row — perform two provider submissions in total: the second
dispatch neither re-checks the stored status nor aborts, so the claimed
"at most one provider call" is violated. -/
theorem c4_counterexample :
    (Part000.sendAndMark okProvider [] [msgText1] msgText1).1
      = [⟨1, "+1555", some "hi", none, 0, "sent"⟩] ∧
    countSubmits
      ((Part000.sendAndMark okProvider [] [msgText1] msgText1).2
        ++ (Part000.sendAndMark okProvider []
              (Part000.sendAndMark okProvider [] [msgText1] msgText1).1
              msgText1).2) = 2 := by decide

/-- C4 amended: sendAndMark performs no conditional re-check of status:
the provider calls it makes are entirely independent of the current
stored table — in particular of any terminal status a competing dispatch
has already written — and every run performs at least one provider call
before writing its own terminal status. -/
theorem c4_amended_no_recheck (P : Provider) (media : List MediaRow)
    (db db2 : List ScheduledMsg) (msg : ScheduledMsg) :
    (Part000.sendAndMark P media db msg).2
      = (Part000.sendAndMark P media db2 msg).2 ∧
    (Part000.sendAndMark P media db msg).2 ≠ [] := by
  refine ⟨rfl, ?_⟩
  cases hm : msg.media_id.bind (findMedia media) with
  | none =>
    cases hP : P.submitMessage (Payload.text msg.phone_number msg.message_text) <;>
      simp [Part000.sendAndMark, Part000.sendWhatsAppMessage, hm, hP]
  | some row =>
    cases hu : P.uploadMedia row.name row.type row.content <;>
      simp [Part000.sendAndMark, Part000.sendWhatsAppMessage, hm, hu]

/-- C4 amended witness: the timer dispatch performs the same provider
calls whether the stored row is still "pending" or already "sent". -/
theorem c4_amended_no_recheck_witness :
    (Part000.sendAndMark okProvider [] [msgText1] msgText1).2
      = (Part000.sendAndMark okProvider []
          [⟨1, "+1555", some "hi", none, 0, "sent"⟩] msgText1).2 ∧
    (Part000.sendAndMark okProvider [] [msgText1] msgText1).2 ≠ [] :=
  c4_amended_no_recheck okProvider [] [msgText1]
    [⟨1, "+1555", some "hi", none, 0, "sent"⟩] msgText1

/-- C6 counterexample: two accepting providers that assign different
message ids ("wamid.OK" and "wamid.OTHER") leave byte-identical stored
tables after dispatch, and the updated row is exactly the old row with
status "sent": the provider-assigned message identifier is not recorded
anywhere — the scheduled_messages schema has no providerMessageId
column, so it cannot be populated after a successful submission. -/
theorem c6_counterexample :
    (ServerJs.processDueMessages okProvider [] [msgText1] 0).1
      = (ServerJs.processDueMessages okProviderB [] [msgText1] 0).1 ∧
    (ServerJs.processDueMessages okProvider [] [msgText1] 0).1
      = [⟨1, "+1555", some "hi", none, 0, "sent"⟩] := by decide

/-- C6 amended: after a successful submission the dispatched entry is
updated with status = "sent" and nothing else: the resulting table is
updateStatus of the old table, an operation that does not involve the
provider-assigned message identifier at all. -/
theorem c6_amended_status_only (P : Provider) (media : List MediaRow)
    (db : List ScheduledMsg) (msg : ScheduledMsg)
    (h : (ServerJs.sendWhatsAppMessage P msg.phone_number msg.message_text
            (msg.media_id.bind (findMedia media))).1.isSome = true) :
    (ServerJs.processOne P media db msg).1 = updateStatus db msg.id "sent" := by
  simp [ServerJs.processOne, h]

/-- C6 amended witness: a successful text dispatch. -/
theorem c6_amended_status_only_witness :
    (ServerJs.processOne okProvider [] [msgText1] msgText1).1
      = updateStatus [msgText1] msgText1.id "sent" :=
  c6_amended_status_only okProvider [] [msgText1] msgText1 (by decide)

/-- C7: for every media send in either variant, when the media-upload
phase fails the trace holds exactly the upload call — the message
submission is never attempted — and the entry ends with status
"failed". -/
theorem c7_upload_failure_blocks_submit (P : Provider)
    (media : List MediaRow) (db : List ScheduledMsg) (msg : ScheduledMsg)
    (row : MediaRow)
    (hrow : msg.media_id.bind (findMedia media) = some row)
    (hup : P.uploadMedia row.name row.type row.content = none) :
    (ServerJs.processOne P media db msg).2
        = [ProviderCall.upload row.name row.type row.content] ∧
    (ServerJs.processOne P media db msg).1
        = updateStatus db msg.id "failed" ∧
    (Part000.sendAndMark P media db msg).2
        = [ProviderCall.upload row.name row.type row.content] ∧
    (Part000.sendAndMark P media db msg).1
        = updateStatus db msg.id "failed" := by
  simp [ServerJs.processOne, ServerJs.sendWhatsAppMessage,
    Part000.sendAndMark, Part000.sendWhatsAppMessage, hrow, hup]

/-- C7 witness: entry referencing the jpeg media row, provider whose
upload fails. -/
theorem c7_upload_failure_blocks_submit_witness :
    (ServerJs.processOne uploadFailProvider [jpegRow] [msgDangling]
        msgDangling).2
      = [ProviderCall.upload jpegRow.name jpegRow.type jpegRow.content] ∧
    (ServerJs.processOne uploadFailProvider [jpegRow] [msgDangling]
        msgDangling).1
      = updateStatus [msgDangling] msgDangling.id "failed" ∧
    (Part000.sendAndMark uploadFailProvider [jpegRow] [msgDangling]
        msgDangling).2
      = [ProviderCall.upload jpegRow.name jpegRow.type jpegRow.content] ∧
    (Part000.sendAndMark uploadFailProvider [jpegRow] [msgDangling]
        msgDangling).1
      = updateStatus [msgDangling] msgDangling.id "failed" :=
  c7_upload_failure_blocks_submit uploadFailProvider [jpegRow] [msgDangling]
    msgDangling jpegRow (by decide) (by decide)

/-- C8 counterexample: the MIME type application/zip belongs to no
allow-list category, yet getWhatsAppPayloadType classifies it as
"document" and the send path happily uploads the asset and submits a
document payload to the provider: no UnsupportedMediaType signal exists
anywhere in the dispatch path. -/
theorem c8_counterexample :
    getWhatsAppPayloadType "application/zip" = "document" ∧
    ServerJs.sendWhatsAppMessage okProvider "+1555" (some "hi")
        (some zipRow)
      = (some "wamid.OK",
         [ProviderCall.upload "a.zip" "application/zip" [1],
          ProviderCall.submit
            (Payload.media "+1555" "document" "MEDIA1" "hi")]) := by decide

/-- C8 amended: every MIME type outside all allow-list categories — not
only allowed-but-unmatched ones — classifies as "document" (there is no
UnsupportedMediaType signal; upload-time CRUD validation is the only
MIME check in the system); allow-listed types map to their category, and
an image/jpeg asset is submitted as kind "image" with caption
entry.text ?? "". -/
theorem c8_amended_document_default (mime : String)
    (h : ∀ p ∈ WHATSAPP_ALLOWED_TYPES, mime ∉ p.2) :
    getWhatsAppPayloadType mime = "document" ∧
    getWhatsAppPayloadType "image/jpeg" = "image" ∧
    ∀ (P : Provider) (to_ : String) (text : Option String) (row : MediaRow)
      (mediaId : String), row.type = "image/jpeg" →
      P.uploadMedia row.name row.type row.content = some mediaId →
      (ServerJs.sendWhatsAppMessage P to_ text (some row)).2
        = [ProviderCall.upload row.name row.type row.content,
           ProviderCall.submit
             (Payload.media to_ "image" mediaId (text.getD ""))] := by
  have hj : getWhatsAppPayloadType "image/jpeg" = "image" := by decide
  refine ⟨?_, hj, ?_⟩
  · have hfind : WHATSAPP_ALLOWED_TYPES.find?
        (fun p => p.2.contains mime) = none := by
      rw [List.find?_eq_none]
      intro p hp
      simpa [List.contains, List.elem_iff] using h p hp
    unfold getWhatsAppPayloadType
    rw [hfind]
  · intro P to_ text row mediaId hrow hup
    rw [hrow] at hup
    cases hP : P.submitMessage (Payload.media to_ "image" mediaId (text.getD "")) <;>
      simp [ServerJs.sendWhatsAppMessage, hrow, hup, hj, hP]

/-- C8 amended witness: application/zip is outside every category. -/
theorem c8_amended_document_default_witness :
    getWhatsAppPayloadType "application/zip" = "document" :=
  (c8_amended_document_default "application/zip" (by decide)).1
